import Mathlib

/-!
Verification development for the raster editing and history pipeline of the
in-browser image editor (src/components/editor/ImageEditor.tsx,
src/lib/image-processing.ts, src/lib/filters.ts).

Rasters are modelled as flat row-major RGBA pixel lists, mirroring the
ImageData layout used by the source.  Canvas API calls that can throw DOM
exceptions (getImageData with a zero-sized rectangle, arc with a negative
radius) are modelled with Except; an exception leaves the canvas untouched.
-/

set_option maxRecDepth 8000

namespace ImageEditor

/-- One RGBA pixel; each channel is an 8-bit value stored as a Nat. -/
structure Pixel where
  r : Nat
  g : Nat
  b : Nat
  a : Nat
deriving DecidableEq, Repr

/-- The transparent-black pixel that canvas getImageData yields for
out-of-bounds source coordinates. -/
def transparentBlack : Pixel := ⟨0, 0, 0, 0⟩

/-- A raster: width, height, and a flat row-major pixel list (the model of an
ImageData buffer; the source stores stride = width*4 bytes, we group the four
channels into one Pixel). -/
structure Raster where
  width : Nat
  height : Nat
  data : List Pixel
deriving DecidableEq, Repr

/-- Pixel lookup with canvas semantics: coordinates outside the raster read as
transparent black (this is exactly what getImageData produces for
out-of-bounds source pixels). -/
def Raster.pixAt (img : Raster) (ix iy : Int) : Pixel :=
  if 0 ≤ ix ∧ ix < (img.width : Int) ∧ 0 ≤ iy ∧ iy < (img.height : Int) then
    img.data.getD (iy.toNat * img.width + ix.toNat) transparentBlack
  else transparentBlack

/-- Builds a w×h raster from a pixel generator, in row-major order (the layout
used by every ImageData buffer in the source). -/
def Raster.ofFn (w h : Nat) (f : Nat → Nat → Pixel) : Raster :=
  ⟨w, h, (List.range (w * h)).map (fun k => f (k % w) (k / w))⟩

/-- Pointwise pixel transformation of a raster (models an in-place loop over
an ImageData buffer that rewrites each pixel independently). -/
def Raster.mapPixels (g : Pixel → Pixel) (img : Raster) : Raster :=
  ⟨img.width, img.height, img.data.map g⟩

theorem Raster.pixAt_ofFn (w h : Nat) (f : Nat → Nat → Pixel) (ix iy : Int)
    (hx0 : 0 ≤ ix) (hxw : ix < (w : Int)) (hy0 : 0 ≤ iy) (hyh : iy < (h : Int)) :
    (Raster.ofFn w h f).pixAt ix iy = f ix.toNat iy.toNat := by
  have hxw' : ix.toNat < w := by omega
  have hyh' : iy.toNat < h := by omega
  have hw : 0 < w := by omega
  have hidx : iy.toNat * w + ix.toNat < w * h := by
    calc iy.toNat * w + ix.toNat < iy.toNat * w + w := by omega
    _ = (iy.toNat + 1) * w := by ring
    _ ≤ h * w := Nat.mul_le_mul_right w (by omega)
    _ = w * h := Nat.mul_comm h w
  unfold Raster.pixAt Raster.ofFn
  have hc : 0 ≤ ix ∧ ix < (w : Int) ∧ 0 ≤ iy ∧ iy < (h : Int) := ⟨hx0, hxw, hy0, hyh⟩
  rw [if_pos hc]
  rw [List.getD_eq_getElem?_getD, List.getElem?_map, List.getElem?_range hidx]
  simp only [Option.map_some', Option.getD_some]
  congr 1
  · rw [Nat.mul_comm iy.toNat w, Nat.mul_add_mod]
    exact Nat.mod_eq_of_lt hxw'
  · rw [Nat.mul_comm iy.toNat w, Nat.mul_add_div hw]
    simp [Nat.div_eq_of_lt hxw']

theorem Raster.mapPixels_ofFn (w h : Nat) (f : Nat → Nat → Pixel) (g : Pixel → Pixel) :
    (Raster.ofFn w h f).mapPixels g = Raster.ofFn w h (fun i j => g (f i j)) := by
  simp [Raster.ofFn, Raster.mapPixels, List.map_map, Function.comp]

/-- The seven live adjustment sliders (FilterValues in ImageEditor.tsx,
lines 64-72).  Values are integers as produced by the sliders. -/
structure FilterValues where
  brightness : Int
  contrast : Int
  saturation : Int
  sepia : Int
  grayscale : Int
  blur : Int
  hueRotate : Int
deriving DecidableEq, Repr

/-- DEFAULT_FILTERS of ImageEditor.tsx lines 74-82. -/
def DEFAULT_FILTERS : FilterValues :=
  { brightness := 100, contrast := 100, saturation := 100,
    sepia := 0, grayscale := 0, blur := 0, hueRotate := 0 }

/-- A filter preset (Filter interface of src/lib/filters.ts lines 1-13): every
field is optional.  Note the preset key for saturation is named `saturate`,
while the live FilterValues field is named `saturation`. -/
structure Filter where
  contrast : Option Int
  brightness : Option Int
  saturate : Option Int
  sepia : Option Int
  grayscale : Option Int
  hueRotate : Option Int
  blur : Option Int
deriving DecidableEq, Repr

/-- The Clarendon entry of INSTAGRAM_FILTERS (src/lib/filters.ts lines 21-29):
contrast 120, saturate 125, brightness 110, nothing else specified. -/
def clarendon : Filter :=
  { contrast := some 120, brightness := some 110, saturate := some 125,
    sepia := none, grayscale := none, hueRotate := none, blur := none }

/-- JavaScript object-spread merge of a preset onto a FilterValues base, as in
`\x7b ...base, ...f.filter \x7d`.  The spread copies the preset keys by name:
brightness, contrast, sepia, grayscale, blur and hueRotate land on the fields
of the same name, but the preset key `saturate` does not coincide with the
live field `saturation`, so the spread leaves `saturation` at the base value
(the stray `saturate` property it adds is never read by getFilterString, which
only reads `saturation`). -/
def spreadMerge (base : FilterValues) (f : Filter) : FilterValues :=
  { brightness := f.brightness.getD base.brightness
    contrast := f.contrast.getD base.contrast
    saturation := base.saturation
    sepia := f.sepia.getD base.sepia
    grayscale := f.grayscale.getD base.grayscale
    blur := f.blur.getD base.blur
    hueRotate := f.hueRotate.getD base.hueRotate }

/-- The editing modes of the session controller (type Mode of
ImageEditor.tsx line 84; the null mode is represented by Option.none at the
state level). -/
inductive Mode where
  | crop | adjust | filter | draw | repair | removeBg | compress
deriving DecidableEq, Repr

/-- One history entry (HistoryState of ImageEditor.tsx line 100): the
committed raster (a data URL in the source, modelled by its decoded pixel
value, which is faithful because the source serializes to lossless PNG) plus
the adjustment values live at commit time. -/
structure HistoryState where
  src : Raster
  filters : FilterValues
deriving DecidableEq, Repr

/-- Fallback entry for out-of-range history indexing; the source indexes
unconditionally and its guards keep the index in range, so this default is
never reached from a reachable state. -/
def defaultHistoryState : HistoryState := ⟨⟨0, 0, []⟩, DEFAULT_FILTERS⟩

/-- The session controller state of ImageEditor (the React useState cells that
the claims are about).  The canvas field models the mutable canvas buffer; the
effect of ImageEditor.tsx lines 146-158 that repaints the canvas from imageSrc
is folded into the handlers that change imageSrc. -/
structure EditorState where
  imageSrc : Raster
  mode : Option Mode
  filters : FilterValues
  lastAppliedFilters : FilterValues
  history : List HistoryState
  historyIndex : Nat
  canvas : Raster
  isDrawing : Bool
deriving DecidableEq, Repr

/-- Initial session state for a freshly loaded image (ImageEditor.tsx lines
92-107): a single history entry holding the loaded image with default
adjustments, index 0, no mode selected. -/
def initialState (initialImage : Raster) : EditorState :=
  { imageSrc := initialImage
    mode := none
    filters := DEFAULT_FILTERS
    lastAppliedFilters := DEFAULT_FILTERS
    history := [⟨initialImage, DEFAULT_FILTERS⟩]
    historyIndex := 0
    canvas := initialImage
    isDrawing := false }

/-- addToHistory of ImageEditor.tsx lines 197-204: slice the history to the
current index inclusive, append the new entry, point the index at the new last
entry, and set imageSrc and filters.  The canvas repaint effect is folded in
(canvas := newSrc). -/
def addToHistory (s : EditorState) (newSrc : Raster) (newFilters : FilterValues) : EditorState :=
  let newHistory := s.history.take (s.historyIndex + 1) ++ [⟨newSrc, newFilters⟩]
  { s with history := newHistory
           historyIndex := newHistory.length - 1
           imageSrc := newSrc
           filters := newFilters
           canvas := newSrc }

/-- handleUndo of ImageEditor.tsx lines 206-214: only acts when the index is
positive; restores src, filters and lastAppliedFilters from the entry now
current. -/
def handleUndo (s : EditorState) : EditorState :=
  if 0 < s.historyIndex then
    let st := s.history.getD (s.historyIndex - 1) defaultHistoryState
    { s with historyIndex := s.historyIndex - 1
             imageSrc := st.src
             filters := st.filters
             lastAppliedFilters := st.filters
             canvas := st.src }
  else s

/-- handleRedo of ImageEditor.tsx lines 216-224: only acts when the index is
below length - 1 (the guard historyIndex < history.length - 1 over JavaScript
numbers is historyIndex + 1 < history.length over Nat, also when the list is
empty). -/
def handleRedo (s : EditorState) : EditorState :=
  if s.historyIndex + 1 < s.history.length then
    let st := s.history.getD (s.historyIndex + 1) defaultHistoryState
    { s with historyIndex := s.historyIndex + 1
             imageSrc := st.src
             filters := st.filters
             lastAppliedFilters := st.filters
             canvas := st.src }
  else s

/-- Clicking the Crop tool button (ImageEditor.tsx line 466): the onClick is
exactly setMode of the crop mode and nothing else. -/
def setModeCrop (s : EditorState) : EditorState :=
  { s with mode := some Mode.crop }

/-- applyFilters of ImageEditor.tsx lines 300-303 (the Apply button of the
adjust/filter panel): record the live filters as last applied, then commit the
current imageSrc together with the live filters. -/
def applyFiltersAction (s : EditorState) : EditorState :=
  addToHistory { s with lastAppliedFilters := s.filters } s.imageSrc s.filters

/-- Clicking a preset thumbnail in filter mode (ImageEditor.tsx line 744):
setFilters of the object spread of the preset onto lastAppliedFilters. -/
def presetClickFilterMode (s : EditorState) (f : Filter) : EditorState :=
  { s with filters := spreadMerge s.lastAppliedFilters f }

/-- An in-place mutation of the canvas buffer during a Draw or Repair
interaction (a stroke segment of moveInteraction, or a spotFix/removeRedEye
call of startInteraction); the mutation is abstracted as a function on the
buffer value.  Only the canvas changes; history entries and imageSrc are
untouched. -/
def applyCanvasOp (s : EditorState) (f : Raster → Raster) : EditorState :=
  { s with canvas := f s.canvas, isDrawing := true }

/-- A sequence of in-place canvas mutations. -/
def applyOps (s : EditorState) (fs : List (Raster → Raster)) : EditorState :=
  fs.foldl applyCanvasOp s

/-- endInteraction of ImageEditor.tsx lines 288-296 (pointer-up): if an
interaction is in progress, commit the serialized canvas (toDataURL, a
lossless PNG snapshot of the buffer value) with the live filters; then clear
the drawing flag. -/
def endInteraction (s : EditorState) : EditorState :=
  if s.isDrawing then
    { addToHistory s s.canvas s.filters with isDrawing := false }
  else { s with isDrawing := false }

/-- Rounding of a nonnegative rational num/den to the nearest integer, ties to
even: the rounding a browser applies when a JavaScript number is stored into a
Uint8ClampedArray element (all quotients arising here are in range, so the
clamp itself never acts). -/
def roundHalfEven (num den : Nat) : Nat :=
  let q := num / den
  let r := num % den
  if 2 * r < den then q
  else if den < 2 * r then q + 1
  else if q % 2 = 0 then q else q + 1

/-- The per-pixel red-eye rule of removeRedEye (image-processing.ts lines
285-296): when red exceeds green+blue and exceeds 50, red, green and blue all
become the stored average of green and blue; alpha is never written. -/
def redEyePix (p : Pixel) : Pixel :=
  if p.g + p.b < p.r ∧ 50 < p.r then
    let avg := roundHalfEven (p.g + p.b) 2
    ⟨avg, avg, avg, p.a⟩
  else p

/-- The red-eye predicate on a pixel (the condition of line 290). -/
def redEyePred (p : Pixel) : Prop := p.g + p.b < p.r ∧ 50 < p.r

instance (p : Pixel) : Decidable (redEyePred p) := by
  unfold redEyePred; infer_instance

/-- Canvas getImageData semantics (HTML canvas specification, as invoked at
image-processing.ts lines 104, 193 and 277): a zero-sized rectangle throws
IndexSizeError; a negative width or height flips the source rectangle; source
pixels outside the canvas read as transparent black. -/
def getImageDataJS (img : Raster) (sx sy sw sh : Int) : Except String Raster :=
  if sw = 0 ∨ sh = 0 then .error "IndexSizeError"
  else
    let sx0 := if sw < 0 then sx + sw else sx
    let sy0 := if sh < 0 then sy + sh else sy
    .ok (Raster.ofFn sw.natAbs sh.natAbs (fun i j => img.pixAt (sx0 + i) (sy0 + j)))

/-- Disc membership used to model the ctx.arc clip of the repair operators: a
pixel is repainted when it lies strictly inside the circle of the given radius
around the click point (antialiased partial coverage at the circle boundary is
host-defined and idealized to this test). -/
def inDisc (px py cx cy radius : Int) : Prop :=
  (px - cx) * (px - cx) + (py - cy) * (py - cy) < radius * radius

instance (px py cx cy radius : Int) : Decidable (inDisc px py cx cy radius) := by
  unfold inDisc; infer_instance

/-- Pasting a processed region back onto the canvas through the circular clip
(the save/beginPath/arc/clip/drawImage/restore sequence of the repair
operators): inside the disc and the pasted rectangle the processed pixel wins,
everywhere else the canvas pixel is kept.  Compositing is modelled as
replacement, which is exact for opaque pixels (source-over with alpha 255). -/
def pasteClipped (canvas processed : Raster) (startX startY cx cy radius : Int) : Raster :=
  Raster.ofFn canvas.width canvas.height (fun px py =>
    if inDisc px py cx cy radius ∧
       startX ≤ (px : Int) ∧ (px : Int) < startX + (processed.width : Int) ∧
       startY ≤ (py : Int) ∧ (py : Int) < startY + (processed.height : Int)
    then processed.pixAt ((px : Int) - startX) ((py : Int) - startY)
    else canvas.pixAt px py)

/-- removeRedEye of image-processing.ts lines 258-312.  The early return of
lines 271-275 leaves the canvas untouched whenever the 2r×2r extraction square
sticks out past the right or bottom edge; otherwise the square is extracted
(getImageData, which throws on a zero-sized square when radius = 0), every
pixel is rewritten by the red-eye rule, and the result is pasted back clipped
to the disc (ctx.arc throws on a negative radius before anything is drawn). -/
def removeRedEye (canvas : Raster) (x y radius : Int) : Except String Raster :=
  let size := radius * 2
  let startX := max 0 (x - radius)
  let startY := max 0 (y - radius)
  if startX + size > (canvas.width : Int) ∨ startY + size > (canvas.height : Int) then
    .ok canvas
  else do
    let region ← getImageDataJS canvas startX startY size size
    let processed := region.mapPixels redEyePix
    if radius < 0 then .error "IndexSizeError"
    else .ok (pasteClipped canvas processed startX startY x y radius)

/-- The 5×5 neighborhood offsets of the box blur (dy and dx from -2 to 2,
image-processing.ts lines 216-217). -/
def neighborOffsets : List (Int × Int) :=
  (List.range 5).flatMap (fun a => (List.range 5).map (fun b => ((a : Int) - 2, (b : Int) - 2)))

/-- The box-blur of one pixel of the extracted region (image-processing.ts
lines 206-235): mean of the in-region 5×5 neighborhood, read from the pristine
copy; neighbors outside the region are excluded from both sum and count;
alpha is never written.  Arguments are column j and row i as in the source
loops. -/
def blurPix (region : Raster) (j i : Nat) : Pixel :=
  let p := region.pixAt (j : Int) (i : Int)
  let acc := neighborOffsets.foldl
    (fun (acc : Nat × Nat × Nat × Nat) off =>
      let ny := (i : Int) + off.1
      let nx := (j : Int) + off.2
      if 0 ≤ ny ∧ ny < (region.height : Int) ∧ 0 ≤ nx ∧ nx < (region.width : Int) then
        let q := region.pixAt nx ny
        (acc.1 + q.r, acc.2.1 + q.g, acc.2.2.1 + q.b, acc.2.2.2 + 1)
      else acc)
    (0, 0, 0, 0)
  if acc.2.2.2 = 0 then p
  else ⟨roundHalfEven acc.1 acc.2.2.2, roundHalfEven acc.2.1 acc.2.2.2,
        roundHalfEven acc.2.2.1 acc.2.2.2, p.a⟩

/-- The whole-region box blur of spotFix. -/
def boxBlurRegion (region : Raster) : Raster :=
  Raster.ofFn region.width region.height (fun j i => blurPix region j i)

/-- spotFix of image-processing.ts lines 180-252: extract the 2r×2r square
around the click (left and top clamped to 0; getImageData pads the right and
bottom overhang with transparent black and throws when radius = 0 makes the
square zero-sized), box-blur it, and paste it back clipped to the disc
(ctx.arc throws on a negative radius before anything is drawn). -/
def spotFix (canvas : Raster) (x y radius : Int) : Except String Raster :=
  let size := radius * 2
  let startX := max 0 (x - radius)
  let startY := max 0 (y - radius)
  do
    let region ← getImageDataJS canvas startX startY size size
    let blurred := boxBlurRegion region
    if radius < 0 then .error "IndexSizeError"
    else .ok (pasteClipped canvas blurred startX startY x y radius)

/-- Resulting canvas state after running a repair operator: a thrown DOM
exception aborts the handler before the canvas is drawn on, leaving the buffer
as it was. -/
def runRepair (canvas : Raster) (op : Except String Raster) : Raster :=
  match op with
  | .ok r => r
  | .error _ => canvas

/-- The pixel-space crop rectangle handed to getCroppedImg (the scaled
completedCrop of performCrop; coordinates may be fractional in the source and
are modelled as integers, which covers every bounds question the claims
raise). -/
structure CropRect where
  x : Int
  y : Int
  width : Int
  height : Int
deriving DecidableEq, Repr

/-- The crop stage of getCroppedImg (image-processing.ts lines 99-119), taking
as input the working raster already rendered with rotation and flips onto the
bounding-box canvas (lines 77-97; the rendering itself uses host-defined
resampling).  A null pixelCrop skips extraction and returns the working raster
itself; otherwise getImageData extracts the requested rectangle and the final
canvas of exactly that size reproduces it. -/
def getCroppedImgOn (working : Raster) (pixelCrop : Option CropRect) : Except String Raster :=
  match pixelCrop with
  | none => .ok working
  | some c => getImageDataJS working c.x c.y c.width c.height

/-- getRadianAngle of image-processing.ts lines 31-33. -/
noncomputable def getRadianAngle (degreeValue : ℝ) : ℝ := degreeValue * Real.pi / 180

/-- rotateSize of image-processing.ts lines 38-53: the axis-aligned bounding
box of a width×height rectangle rotated by the given angle in degrees. -/
noncomputable def rotateSize (width height rotation : ℝ) : ℝ × ℝ :=
  let rotRad := getRadianAngle rotation
  (|Real.cos rotRad * width| + |Real.sin rotRad * height|,
   |Real.sin rotRad * width| + |Real.cos rotRad * height|)

/-- Concrete 1×1 sample rasters for witnesses and counterexamples. -/
def sampleRaster0 : Raster := ⟨1, 1, [⟨0, 0, 0, 255⟩]⟩

def sampleRasterA : Raster := ⟨1, 1, [⟨10, 0, 0, 255⟩]⟩

def sampleRasterB : Raster := ⟨1, 1, [⟨20, 0, 0, 255⟩]⟩

def sampleRasterC : Raster := ⟨1, 1, [⟨30, 0, 0, 255⟩]⟩

/-- Live adjustments with brightness raised to 120, everything else default. -/
def sampleFilters120 : FilterValues := { DEFAULT_FILTERS with brightness := 120 }

/-- A session state with an uncommitted live brightness tweak: one history
entry (the loaded image), live brightness 120, last-applied still default. -/
def liveTweakState : EditorState :=
  { imageSrc := sampleRaster0
    mode := none
    filters := sampleFilters120
    lastAppliedFilters := DEFAULT_FILTERS
    history := [⟨sampleRaster0, DEFAULT_FILTERS⟩]
    historyIndex := 0
    canvas := sampleRaster0
    isDrawing := false }

/-- C1: for every history state, commit truncates all entries after the
current index, appends the new entry (raster plus the adjustments live at
commit time) and sets the current index to the new last position; undo
decrements the index only when it is greater than 0 and redo increments it
only when it is below length-1, both being no-ops otherwise; and starting
from the single initial entry, commit(A), commit(B), undo(), commit(C) leaves
a history of length 3 (initial, A, C) with current index 2, after which
redo() is a no-op. -/
theorem C1_history_semantics :
    (∀ (s : EditorState) (r : Raster) (f : FilterValues),
       (addToHistory s r f).history = s.history.take (s.historyIndex + 1) ++ [⟨r, f⟩] ∧
       (addToHistory s r f).historyIndex = (addToHistory s r f).history.length - 1) ∧
    (∀ s : EditorState, s.historyIndex = 0 → handleUndo s = s) ∧
    (∀ s : EditorState, 0 < s.historyIndex → (handleUndo s).historyIndex = s.historyIndex - 1) ∧
    (∀ s : EditorState, s.history.length ≤ s.historyIndex + 1 → handleRedo s = s) ∧
    (∀ s : EditorState, s.historyIndex + 1 < s.history.length →
       (handleRedo s).historyIndex = s.historyIndex + 1) ∧
    (∀ (r0 rA rB rC : Raster) (fA fB fC : FilterValues),
       (addToHistory (handleUndo (addToHistory (addToHistory (initialState r0) rA fA) rB fB))
           rC fC).history = [⟨r0, DEFAULT_FILTERS⟩, ⟨rA, fA⟩, ⟨rC, fC⟩] ∧
       (addToHistory (handleUndo (addToHistory (addToHistory (initialState r0) rA fA) rB fB))
           rC fC).historyIndex = 2 ∧
       handleRedo (addToHistory (handleUndo (addToHistory (addToHistory (initialState r0) rA fA)
           rB fB)) rC fC) =
         addToHistory (handleUndo (addToHistory (addToHistory (initialState r0) rA fA) rB fB))
           rC fC) := by
  refine ⟨fun s r f => ⟨rfl, rfl⟩, ?_, ?_, ?_, ?_, ?_⟩
  · intro s h
    simp [handleUndo, h]
  · intro s h
    simp [handleUndo, h]
  · intro s h
    have : ¬ s.historyIndex + 1 < s.history.length := by omega
    simp [handleRedo, this]
  · intro s h
    simp [handleRedo, h]
  · intro r0 rA rB rC fA fB fC
    exact ⟨rfl, rfl, rfl⟩

/-- Witness for C1 at concrete rasters: undo on the initial single-entry state
is a no-op, and the commit-commit-undo-commit scenario produces the expected
three-entry history. -/
theorem C1_history_semantics_witness :
    handleUndo (initialState sampleRaster0) = initialState sampleRaster0 ∧
    (addToHistory (handleUndo (addToHistory (addToHistory (initialState sampleRaster0)
        sampleRasterA DEFAULT_FILTERS) sampleRasterB DEFAULT_FILTERS))
        sampleRasterC sampleFilters120).history =
      [⟨sampleRaster0, DEFAULT_FILTERS⟩, ⟨sampleRasterA, DEFAULT_FILTERS⟩,
       ⟨sampleRasterC, sampleFilters120⟩] :=
  ⟨C1_history_semantics.2.1 (initialState sampleRaster0) rfl,
   (C1_history_semantics.2.2.2.2.2 sampleRaster0 sampleRasterA sampleRasterB sampleRasterC
      DEFAULT_FILTERS DEFAULT_FILTERS sampleFilters120).1⟩

/-- A session state with live brightness 120 and sepia 55, last-applied still
default: exhibits that the filter-mode preset merge base is the last-applied
values, not the live values. -/
def liveTweakSepiaState : EditorState :=
  { liveTweakState with filters := { sampleFilters120 with sepia := 55 } }

/-- C2 counterexample: with live adjustments brightness 120 (others default)
and last-applied defaults, clicking the Clarendon preset (contrast 120,
saturate 125, brightness 110) in filter mode yields saturation 100, not the
claimed 125 (the preset key saturate never reaches the live field saturation),
so the claimed result record is not produced; moreover a live sepia 55 is not
retained but replaced by the last-applied value 0, contradicting the claim
that unspecified fields retain the current live value. -/
theorem C2_preset_merge_counterexample :
    (presetClickFilterMode liveTweakState clarendon).filters.saturation = 100 ∧
    (presetClickFilterMode liveTweakState clarendon).filters ≠
      { brightness := 110, contrast := 120, saturation := 125,
        sepia := 0, grayscale := 0, blur := 0, hueRotate := 0 } ∧
    liveTweakSepiaState.filters.sepia = 55 ∧
    (presetClickFilterMode liveTweakSepiaState clarendon).filters.sepia = 0 := by
  decide

/-- C2 (amended): clicking a preset in filter mode overwrites only the preset
fields whose key matches a live field name, merging onto the last-applied
filter values (not the live values); the preset key saturate does not match
the live field saturation, so saturation always keeps the merge-base value;
in the concrete scenario the result is brightness 110, contrast 120,
saturation 100 and all other fields equal to the last-applied defaults. -/
theorem C2_preset_merge_amended :
    (∀ (s : EditorState) (f : Filter),
       (presetClickFilterMode s f).filters = spreadMerge s.lastAppliedFilters f ∧
       (presetClickFilterMode s f).filters.saturation = s.lastAppliedFilters.saturation ∧
       (presetClickFilterMode s f).history = s.history ∧
       (presetClickFilterMode s f).imageSrc = s.imageSrc) ∧
    (∀ b : FilterValues,
       spreadMerge b clarendon =
         { brightness := 110, contrast := 120, saturation := b.saturation,
           sepia := b.sepia, grayscale := b.grayscale, blur := b.blur,
           hueRotate := b.hueRotate }) ∧
    (presetClickFilterMode liveTweakState clarendon).filters =
      { brightness := 110, contrast := 120, saturation := 100,
        sepia := 0, grayscale := 0, blur := 0, hueRotate := 0 } := by
  refine ⟨fun s f => ⟨rfl, rfl, rfl, rfl⟩, fun b => rfl, by decide⟩

/-- C3 counterexample: in a concrete state whose live adjustments differ from
the defaults, clicking the Crop tool changes the mode and nothing else — the
base raster, the history and the live adjustments are all untouched, so no
bake of the displayed composite happens before crop coordinates are
computed. -/
theorem C3_crop_entry_counterexample :
    liveTweakState.filters ≠ DEFAULT_FILTERS ∧
    setModeCrop liveTweakState = { liveTweakState with mode := some Mode.crop } ∧
    (setModeCrop liveTweakState).imageSrc = liveTweakState.imageSrc ∧
    (setModeCrop liveTweakState).history = liveTweakState.history ∧
    (setModeCrop liveTweakState).filters ≠ DEFAULT_FILTERS := by
  decide

/-- C3 (amended): entering Crop mode performs no bake in any state: the
click handler only sets the mode, leaving the base raster, the canvas, the
history and the live adjustments exactly as they were (the live adjustments
are merely re-applied as a CSS filter on the crop preview, and performCrop
later crops the unfiltered base raster). -/
theorem C3_crop_entry_amended :
    ∀ s : EditorState,
      setModeCrop s = { s with mode := some Mode.crop } ∧
      (setModeCrop s).imageSrc = s.imageSrc ∧
      (setModeCrop s).history = s.history ∧
      (setModeCrop s).historyIndex = s.historyIndex ∧
      (setModeCrop s).filters = s.filters ∧
      (setModeCrop s).canvas = s.canvas := by
  intro s
  exact ⟨rfl, rfl, rfl, rfl, rfl, rfl⟩

/-- C8 counterexample: in a concrete state with live brightness 120, the
Apply action commits the unchanged base raster (no flattened fresh raster)
and leaves the live adjustments at brightness 120 rather than resetting them
to the defaults. -/
theorem C8_apply_counterexample :
    (applyFiltersAction liveTweakState).filters = sampleFilters120 ∧
    sampleFilters120 ≠ DEFAULT_FILTERS ∧
    (applyFiltersAction liveTweakState).imageSrc = liveTweakState.imageSrc ∧
    (applyFiltersAction liveTweakState).history =
      [⟨sampleRaster0, DEFAULT_FILTERS⟩, ⟨sampleRaster0, sampleFilters120⟩] := by
  decide

/-- C8 (amended): the Apply action records the live filters as last-applied
and commits a new history entry holding the current base raster unchanged
together with the live filters; the live filters are not reset (the composite
continues to be produced at display time from the stored raster and the entry
filters). -/
theorem C8_apply_amended :
    ∀ s : EditorState,
      (applyFiltersAction s).imageSrc = s.imageSrc ∧
      (applyFiltersAction s).filters = s.filters ∧
      (applyFiltersAction s).lastAppliedFilters = s.filters ∧
      (applyFiltersAction s).history =
        s.history.take (s.historyIndex + 1) ++ [⟨s.imageSrc, s.filters⟩] ∧
      (applyFiltersAction s).historyIndex = (applyFiltersAction s).history.length - 1 := by
  intro s
  exact ⟨rfl, rfl, rfl, rfl, rfl⟩

/-- A state whose history has two entries, the second being current, with its
adjustments applied (a state reached right after an Apply of brightness
120). -/
def twoEntryState : EditorState :=
  { imageSrc := sampleRasterA
    mode := none
    filters := sampleFilters120
    lastAppliedFilters := sampleFilters120
    history := [⟨sampleRaster0, DEFAULT_FILTERS⟩, ⟨sampleRasterA, sampleFilters120⟩]
    historyIndex := 1
    canvas := sampleRasterA
    isDrawing := false }

/-- The two-entry state in the middle of a draw/repair interaction. -/
def drawingState : EditorState := { twoEntryState with isDrawing := true }

theorem applyOps_preserves (s : EditorState) (fs : List (Raster → Raster)) :
    (applyOps s fs).history = s.history ∧ (applyOps s fs).imageSrc = s.imageSrc ∧
    (applyOps s fs).historyIndex = s.historyIndex := by
  induction fs generalizing s with
  | nil => exact ⟨rfl, rfl, rfl⟩
  | cons f fs ih => exact ih (applyCanvasOp s f)

/-- C9: no committed history entry aliases the mutable canvas buffer — any
sequence of in-place canvas mutations (draw strokes, spot heals, red-eye
fixes) leaves every stored history entry byte-identical and the base raster
untouched; a pointer-up commit stores the canvas value as it is at commit
time; and undo restores as the base raster exactly the pixels stored in the
entry it returns to. -/
theorem C9_snapshot_independence :
    ∀ (s : EditorState) (fs : List (Raster → Raster)),
      (applyOps s fs).history = s.history ∧
      (applyOps s fs).imageSrc = s.imageSrc ∧
      (applyOps s fs).historyIndex = s.historyIndex ∧
      (s.isDrawing = true →
        (endInteraction s).history =
          s.history.take (s.historyIndex + 1) ++ [⟨s.canvas, s.filters⟩]) ∧
      (0 < s.historyIndex →
        (handleUndo s).imageSrc =
          (s.history.getD (s.historyIndex - 1) defaultHistoryState).src ∧
        (handleUndo s).canvas =
          (s.history.getD (s.historyIndex - 1) defaultHistoryState).src) := by
  intro s fs
  obtain ⟨h1, h2, h3⟩ := applyOps_preserves s fs
  refine ⟨h1, h2, h3, ?_, ?_⟩
  · intro hd
    simp [endInteraction, hd, addToHistory]
  · intro hi
    simp [handleUndo, hi]

/-- Witness for C9 at a concrete two-entry state: a canvas overwrite leaves
the history intact, the pointer-up commit snapshots the canvas value, and
undo restores the first entry's raster. -/
theorem C9_snapshot_independence_witness :
    (applyOps drawingState [fun _ => sampleRasterB]).history = drawingState.history ∧
    (endInteraction drawingState).history =
      drawingState.history.take 2 ++ [⟨drawingState.canvas, drawingState.filters⟩] ∧
    (handleUndo drawingState).imageSrc = sampleRaster0 := by
  obtain ⟨h1, h2, h3, h4, h5⟩ :=
    C9_snapshot_independence drawingState [fun _ => sampleRasterB]
  exact ⟨h1, h4 rfl, (h5 (by decide)).1⟩

/-- C10: immediately after every effective undo or redo, the live filter
values and the last-applied filter values are both set to the restored
entry's adjustments (so they are equal, and no unapplied adjustment changes
are pending), and a preset clicked next in filter mode merges onto the
restored entry's adjustments. -/
theorem C10_undo_redo_filter_sync :
    ∀ (s : EditorState) (p : Filter),
      (0 < s.historyIndex →
        (handleUndo s).filters = (handleUndo s).lastAppliedFilters ∧
        (handleUndo s).filters =
          (s.history.getD (s.historyIndex - 1) defaultHistoryState).filters ∧
        (presetClickFilterMode (handleUndo s) p).filters =
          spreadMerge (s.history.getD (s.historyIndex - 1) defaultHistoryState).filters p) ∧
      (s.historyIndex + 1 < s.history.length →
        (handleRedo s).filters = (handleRedo s).lastAppliedFilters ∧
        (handleRedo s).filters =
          (s.history.getD (s.historyIndex + 1) defaultHistoryState).filters ∧
        (presetClickFilterMode (handleRedo s) p).filters =
          spreadMerge (s.history.getD (s.historyIndex + 1) defaultHistoryState).filters p) := by
  intro s p
  constructor
  · intro h
    simp [handleUndo, presetClickFilterMode, h]
  · intro h
    simp [handleRedo, presetClickFilterMode, h]

/-- Witness for C10 at a concrete two-entry state: after undo the live and
last-applied filters agree, and a Clarendon click merges onto the restored
default adjustments. -/
theorem C10_undo_redo_filter_sync_witness :
    (handleUndo twoEntryState).filters = (handleUndo twoEntryState).lastAppliedFilters ∧
    (handleUndo twoEntryState).filters = DEFAULT_FILTERS ∧
    (presetClickFilterMode (handleUndo twoEntryState) clarendon).filters =
      spreadMerge DEFAULT_FILTERS clarendon := by
  obtain ⟨h1, h2, h3⟩ := (C10_undo_redo_filter_sync twoEntryState clarendon).1 (by decide)
  exact ⟨h1, h2, h3⟩

/-- C7: rotateSize is total over the reals (it is a plain function) and, for
nonnegative dimensions, equals the bounding-box formula
(|cos θ|·w + |sin θ|·h, |sin θ|·w + |cos θ|·h) with θ the rotation converted
from degrees to radians; it returns exactly (w, h) at 0, 180 and 360 degrees,
returns (100, 100) for a 100×100 raster rotated 90 degrees, and at 45 degrees
both components are within 0.5 of 141.4. -/
theorem C7_rotateSize_boundingBox :
    (∀ w h rotation : ℝ, 0 ≤ w → 0 ≤ h →
       rotateSize w h rotation =
         (|Real.cos (rotation * Real.pi / 180)| * w +
            |Real.sin (rotation * Real.pi / 180)| * h,
          |Real.sin (rotation * Real.pi / 180)| * w +
            |Real.cos (rotation * Real.pi / 180)| * h)) ∧
    (∀ w h : ℝ, 0 ≤ w → 0 ≤ h →
       rotateSize w h 0 = (w, h) ∧ rotateSize w h 180 = (w, h) ∧
       rotateSize w h 360 = (w, h)) ∧
    rotateSize 100 100 90 = (100, 100) ∧
    |(rotateSize 100 100 45).1 - 141.4| ≤ 0.5 ∧
    |(rotateSize 100 100 45).2 - 141.4| ≤ 0.5 := by
  have hs : Real.sqrt 2 ^ 2 = 2 := Real.sq_sqrt (by norm_num)
  have hpos : 0 ≤ Real.sqrt 2 := Real.sqrt_nonneg 2
  have h45 : (45 : ℝ) * Real.pi / 180 = Real.pi / 4 := by ring
  have hcos45 : Real.cos ((45 : ℝ) * Real.pi / 180) = Real.sqrt 2 / 2 := by
    rw [h45, Real.cos_pi_div_four]
  have hsin45 : Real.sin ((45 : ℝ) * Real.pi / 180) = Real.sqrt 2 / 2 := by
    rw [h45, Real.sin_pi_div_four]
  have habs : |Real.sqrt 2 / 2| = Real.sqrt 2 / 2 := abs_of_nonneg (by positivity)
  refine ⟨?_, ?_, ?_, ?_, ?_⟩
  · intro w h rotation hw hh
    simp [rotateSize, getRadianAngle, abs_mul, abs_of_nonneg hw, abs_of_nonneg hh]
  · intro w h hw hh
    refine ⟨?_, ?_, ?_⟩
    · have h0 : (0 : ℝ) * Real.pi / 180 = 0 := by ring
      simp [rotateSize, getRadianAngle, h0, abs_mul, abs_of_nonneg hw, abs_of_nonneg hh]
    · have h180 : (180 : ℝ) * Real.pi / 180 = Real.pi := by ring
      simp [rotateSize, getRadianAngle, h180, Real.cos_pi, Real.sin_pi, abs_mul,
        abs_of_nonneg hw, abs_of_nonneg hh]
    · have h360 : (360 : ℝ) * Real.pi / 180 = 2 * Real.pi := by ring
      simp [rotateSize, getRadianAngle, h360, Real.cos_two_pi, Real.sin_two_pi, abs_mul,
        abs_of_nonneg hw, abs_of_nonneg hh]
  · have h90 : (90 : ℝ) * Real.pi / 180 = Real.pi / 2 := by ring
    simp [rotateSize, getRadianAngle, h90, Real.cos_pi_div_two, Real.sin_pi_div_two]
  · have h100 : |(100 : ℝ)| = 100 := by norm_num
    simp only [rotateSize, getRadianAngle, hcos45, hsin45, habs, abs_mul, h100]
    rw [abs_le]
    constructor <;> nlinarith [hs, hpos, sq_nonneg (Real.sqrt 2 - 1.414),
      sq_nonneg (Real.sqrt 2 + 1.414)]
  · have h100 : |(100 : ℝ)| = 100 := by norm_num
    simp only [rotateSize, getRadianAngle, hcos45, hsin45, habs, abs_mul, h100]
    rw [abs_le]
    constructor <;> nlinarith [hs, hpos, sq_nonneg (Real.sqrt 2 - 1.414),
      sq_nonneg (Real.sqrt 2 + 1.414)]

/-- Witness for C7 at concrete dimensions: 100×100 rotated by 0 and by 180
degrees keeps its size. -/
theorem C7_rotateSize_boundingBox_witness :
    (0 : ℝ) ≤ 100 ∧ rotateSize 100 100 0 = (100, 100) ∧
    rotateSize 100 100 180 = (100, 100) :=
  ⟨by norm_num,
   (C7_rotateSize_boundingBox.2.1 100 100 (by norm_num) (by norm_num)).1,
   (C7_rotateSize_boundingBox.2.1 100 100 (by norm_num) (by norm_num)).2.1⟩

instance {ε α : Type} [DecidableEq ε] [DecidableEq α] : DecidableEq (Except ε α) := fun x y =>
  match x, y with
  | Except.ok a, Except.ok b =>
      if h : a = b then isTrue (by rw [h])
      else isFalse (by intro hc; injection hc; exact h (by assumption))
  | Except.error a, Except.error b =>
      if h : a = b then isTrue (by rw [h])
      else isFalse (by intro hc; injection hc; exact h (by assumption))
  | Except.ok _, Except.error _ => isFalse (fun hc => Except.noConfusion hc)
  | Except.error _, Except.ok _ => isFalse (fun hc => Except.noConfusion hc)

/-- A concrete 2×2 all-white working raster. -/
def whiteRaster2 : Raster := Raster.ofFn 2 2 (fun _ _ => ⟨255, 255, 255, 255⟩)

/-- A 2×2 crop rectangle at (1,1): partially outside a 2×2 working raster. -/
def oobCrop : CropRect := ⟨1, 1, 2, 2⟩

/-- C4 counterexample: on a 2×2 working raster, extracting the 2×2 rectangle
at (1,1) — which lies partially outside the raster bounds — does not produce
an error or empty result: it succeeds with a full-size 2×2 raster whose
out-of-bounds pixels read as transparent black. -/
theorem C4_crop_bounds_counterexample :
    (oobCrop.x + oobCrop.width > (whiteRaster2.width : Int)) ∧
    getCroppedImgOn whiteRaster2 (some oobCrop) =
      Except.ok ⟨2, 2, [⟨255, 255, 255, 255⟩, transparentBlack,
                        transparentBlack, transparentBlack]⟩ := by
  decide

/-- C4 (amended): crop with an absent/null CropSpec skips the extraction step
and returns the full transformed working raster; with a positive-size crop
rectangle the extraction never fails, even when the rectangle lies partially
or fully outside the working raster: it returns a raster of the requested
size in which every source coordinate outside the working raster reads as
transparent black. -/
theorem C4_crop_nullAndBounds_amended :
    (∀ working : Raster, getCroppedImgOn working none = Except.ok working) ∧
    (∀ (working : Raster) (c : CropRect), 0 < c.width → 0 < c.height →
       getCroppedImgOn working (some c) =
         Except.ok (Raster.ofFn c.width.natAbs c.height.natAbs
           (fun i j => working.pixAt (c.x + i) (c.y + j))) ∧
       (∀ i j : Nat, (i : Int) < c.width → (j : Int) < c.height →
          ¬ (0 ≤ c.x + i ∧ c.x + i < (working.width : Int) ∧
             0 ≤ c.y + j ∧ c.y + j < (working.height : Int)) →
          (Raster.ofFn c.width.natAbs c.height.natAbs
            (fun i j => working.pixAt (c.x + i) (c.y + j))).pixAt i j = transparentBlack)) := by
  constructor
  · intro working
    rfl
  · intro working c hw hh
    constructor
    · have hne : ¬ (c.width = 0 ∨ c.height = 0) := by omega
      have hnegw : ¬ c.width < 0 := by omega
      have hnegh : ¬ c.height < 0 := by omega
      simp [getCroppedImgOn, getImageDataJS, hne, hnegw, hnegh]
    · intro i j hi hj hout
      have hwi : (i : Int) < (c.width.natAbs : Int) := by omega
      have hhj : (j : Int) < (c.height.natAbs : Int) := by omega
      rw [Raster.pixAt_ofFn _ _ _ (i : Int) (j : Int) (by positivity) hwi (by positivity) hhj]
      simp only [Int.toNat_natCast]
      unfold Raster.pixAt
      rw [if_neg hout]

/-- Witness for C4 at the concrete 2×2 raster: the null crop returns the
working raster itself, and the out-of-bounds 2×2 extraction at (1,1)
succeeds with the padded raster. -/
theorem C4_crop_nullAndBounds_amended_witness :
    getCroppedImgOn whiteRaster2 none = Except.ok whiteRaster2 ∧
    getCroppedImgOn whiteRaster2 (some oobCrop) =
      Except.ok (Raster.ofFn 2 2 (fun i j => whiteRaster2.pixAt (1 + i) (1 + j))) := by
  obtain ⟨h1, h2⟩ := C4_crop_nullAndBounds_amended
  exact ⟨h1 whiteRaster2, (h2 whiteRaster2 oobCrop (by decide) (by decide)).1⟩

/-- A concrete 4×4 raster with a strongly red pixel in its bottom-right
corner and green everywhere else. -/
def redCorner4 : Raster :=
  Raster.ofFn 4 4 (fun i j => if i = 3 ∧ j = 3 then ⟨200, 10, 10, 255⟩ else ⟨10, 200, 10, 255⟩)

theorem spotFix_nonpos_error (canvas : Raster) (x y radius : Int) (h : radius ≤ 0) :
    spotFix canvas x y radius = Except.error "IndexSizeError" := by
  by_cases hr : radius = 0
  · subst hr
    rfl
  · have hlt : radius < 0 := by omega
    simp only [spotFix, getImageDataJS]
    rw [if_neg (show ¬ (radius * 2 = 0 ∨ radius * 2 = 0) by omega)]
    show (if radius < 0 then Except.error "IndexSizeError" else _) = _
    rw [if_pos hlt]

theorem removeRedEye_nonpos (canvas : Raster) (x y radius : Int) (h : radius ≤ 0) :
    removeRedEye canvas x y radius = Except.ok canvas ∨
    removeRedEye canvas x y radius = Except.error "IndexSizeError" := by
  by_cases hout : max 0 (x - radius) + radius * 2 > (canvas.width : Int) ∨
      max 0 (y - radius) + radius * 2 > (canvas.height : Int)
  · left
    simp [removeRedEye, hout]
  · right
    by_cases hr : radius = 0
    · subst hr
      simp only [removeRedEye]
      rw [if_neg hout]
      rfl
    · have hlt : radius < 0 := by omega
      simp only [removeRedEye, getImageDataJS]
      rw [if_neg hout]
      rw [if_neg (show ¬ (radius * 2 = 0 ∨ radius * 2 = 0) by omega)]
      show (if radius < 0 then Except.error "IndexSizeError" else _) = _
      rw [if_pos hlt]

/-- C6 counterexample: on a 4×4 raster, invoking red-eye correction at the
in-bounds point (3,3) with radius 2 — whose extraction square sticks out past
the right and bottom edges — is a complete no-op: the strongly red pixel at
(3,3), which lies in bounds, inside the disc and satisfies the red-eye
predicate, is left unchanged instead of being corrected on the in-bounds part
of the region. -/
theorem C6_edge_policy_counterexample :
    removeRedEye redCorner4 3 3 2 = Except.ok redCorner4 ∧
    redEyePred (redCorner4.pixAt 3 3) ∧
    inDisc 3 3 3 3 2 ∧
    (runRepair redCorner4 (removeRedEye redCorner4 3 3 2)).pixAt 3 3 = ⟨200, 10, 10, 255⟩ := by
  decide

/-- C6 (amended): the spot-heal clips its region (left/top clamped, right and
bottom overhang read as transparent black by getImageData), but red-eye
correction does not clip: it returns with no change whenever the 2r×2r square
extends past the right or bottom raster edge; when the radius is ≤ 0 both
operators leave the raster unchanged — the spot heal by throwing
IndexSizeError (zero-sized extraction or negative arc radius) before drawing,
the red-eye fix by its early return or by the same thrown errors. -/
theorem C6_edge_policy_amended :
    (∀ (canvas : Raster) (x y radius : Int),
       (max 0 (x - radius) + radius * 2 > (canvas.width : Int) ∨
        max 0 (y - radius) + radius * 2 > (canvas.height : Int)) →
       removeRedEye canvas x y radius = Except.ok canvas) ∧
    (∀ (canvas : Raster) (x y radius : Int), radius ≤ 0 →
       runRepair canvas (spotFix canvas x y radius) = canvas ∧
       runRepair canvas (removeRedEye canvas x y radius) = canvas) ∧
    (∀ (canvas : Raster) (x y radius : Int), radius ≤ 0 →
       ∃ e, spotFix canvas x y radius = Except.error e) := by
  refine ⟨?_, ?_, ?_⟩
  · intro canvas x y radius hout
    simp [removeRedEye, hout]
  · intro canvas x y radius h
    constructor
    · rw [spotFix_nonpos_error canvas x y radius h]
      rfl
    · rcases removeRedEye_nonpos canvas x y radius h with hc | hc <;> rw [hc] <;> rfl
  · intro canvas x y radius h
    exact ⟨"IndexSizeError", spotFix_nonpos_error canvas x y radius h⟩

/-- Witness for C6 at concrete inputs: the near-corner red-eye invocation is
a no-op, and radius-0 spot heal and radius -1 red-eye fix leave a 1×1 raster
unchanged. -/
theorem C6_edge_policy_amended_witness :
    removeRedEye redCorner4 3 3 2 = Except.ok redCorner4 ∧
    runRepair sampleRaster0 (spotFix sampleRaster0 0 0 0) = sampleRaster0 ∧
    runRepair sampleRaster0 (removeRedEye sampleRaster0 0 0 (-1)) = sampleRaster0 := by
  obtain ⟨h1, h2, h3⟩ := C6_edge_policy_amended
  exact ⟨h1 redCorner4 3 3 2 (by decide),
         (h2 sampleRaster0 0 0 0 (by decide)).1,
         (h2 sampleRaster0 0 0 (-1) (by decide)).2⟩

theorem Raster.width_ofFn (w h : Nat) (f : Nat → Nat → Pixel) :
    (Raster.ofFn w h f).width = w := rfl

theorem Raster.height_ofFn (w h : Nat) (f : Nat → Nat → Pixel) :
    (Raster.ofFn w h f).height = h := rfl

theorem redEyePix_alpha (p : Pixel) : (redEyePix p).a = p.a := by
  unfold redEyePix
  split <;> rfl

theorem redEyePix_of_not_pred (p : Pixel) (h : ¬ redEyePred p) : redEyePix p = p := by
  unfold redEyePred at h
  unfold redEyePix
  rw [if_neg h]

theorem abs_lt_of_mul_self_lt {a r : Int} (hr : 0 < r) (h : a * a < r * r) :
    -r < a ∧ a < r := by
  constructor <;> nlinarith

/-- Characterization of a red-eye invocation whose extraction square lies
within the canvas and whose radius is positive: the square around the click
is extracted, rewritten pixel-by-pixel by the red-eye rule, and pasted back
through the disc clip. -/
theorem removeRedEye_ok_char (canvas : Raster) (x y radius : Int)
    (hr : 0 < radius)
    (hx : max 0 (x - radius) + radius * 2 ≤ (canvas.width : Int))
    (hy : max 0 (y - radius) + radius * 2 ≤ (canvas.height : Int)) :
    removeRedEye canvas x y radius =
      Except.ok (pasteClipped canvas
        (Raster.ofFn (radius * 2).natAbs (radius * 2).natAbs
          (fun i j => redEyePix
            (canvas.pixAt (max 0 (x - radius) + i) (max 0 (y - radius) + j))))
        (max 0 (x - radius)) (max 0 (y - radius)) x y radius) := by
  have h1 : ¬ (max 0 (x - radius) + radius * 2 > (canvas.width : Int) ∨
      max 0 (y - radius) + radius * 2 > (canvas.height : Int)) := by omega
  have h2 : ¬ (radius * 2 = 0 ∨ radius * 2 = 0) := by omega
  have h3 : ¬ (radius * 2 < 0) := by omega
  have h4 : ¬ (radius < 0) := by omega
  simp only [removeRedEye, getImageDataJS, if_neg h1, if_neg h2, if_neg h3]
  show (if radius < 0 then Except.error "IndexSizeError" else _) = _
  rw [if_neg h4, Raster.mapPixels_ofFn]

/-- C5: with the extraction square in bounds and a positive radius, red-eye
correction rewrites exactly the pixels inside the disc: a pixel whose red
channel exceeds green+blue and exceeds 50 gets red, green and blue replaced
by the stored average of green and blue, every pixel failing the predicate is
unchanged, every alpha value is untouched; concretely a pixel (200,10,10)
becomes (10,10,10) and a pixel (10,200,10) is left unchanged. -/
theorem C5_redeye_pixel_rule :
    ∀ (canvas : Raster) (x y radius : Int) (px py : Nat),
      0 < radius →
      max 0 (x - radius) + radius * 2 ≤ (canvas.width : Int) →
      max 0 (y - radius) + radius * 2 ≤ (canvas.height : Int) →
      px < canvas.width → py < canvas.height →
      (runRepair canvas (removeRedEye canvas x y radius)).pixAt px py =
        (if inDisc px py x y radius then redEyePix (canvas.pixAt px py)
         else canvas.pixAt px py) ∧
      ((runRepair canvas (removeRedEye canvas x y radius)).pixAt px py).a =
        (canvas.pixAt px py).a ∧
      (¬ redEyePred (canvas.pixAt px py) →
        (runRepair canvas (removeRedEye canvas x y radius)).pixAt px py =
          canvas.pixAt px py) ∧
      (∀ a : Nat, redEyePix ⟨200, 10, 10, a⟩ = ⟨10, 10, 10, a⟩ ∧
        redEyePix ⟨10, 200, 10, a⟩ = ⟨10, 200, 10, a⟩) := by
  intro canvas x y radius px py hr hx hy hpx hpy
  have hpx' : (px : Int) < (canvas.width : Int) := by exact_mod_cast hpx
  have hpy' : (py : Int) < (canvas.height : Int) := by exact_mod_cast hpy
  have hmain : (runRepair canvas (removeRedEye canvas x y radius)).pixAt px py =
      (if inDisc px py x y radius then redEyePix (canvas.pixAt px py)
       else canvas.pixAt px py) := by
    rw [removeRedEye_ok_char canvas x y radius hr hx hy]
    show (pasteClipped canvas _ _ _ x y radius).pixAt px py = _
    unfold pasteClipped
    rw [Raster.pixAt_ofFn canvas.width canvas.height _ px py (by positivity) hpx'
      (by positivity) hpy']
    simp only [Int.toNat_natCast, Raster.width_ofFn, Raster.height_ofFn]
    by_cases hd : inDisc px py x y radius
    · have hd2 : ((px : Int) - x) * ((px : Int) - x) + ((py : Int) - y) * ((py : Int) - y)
          < radius * radius := hd
      have hax : -radius < (px : Int) - x ∧ (px : Int) - x < radius :=
        abs_lt_of_mul_self_lt hr
          (by nlinarith [mul_self_nonneg ((py : Int) - y)])
      have hay : -radius < (py : Int) - y ∧ (py : Int) - y < radius :=
        abs_lt_of_mul_self_lt hr
          (by nlinarith [mul_self_nonneg ((px : Int) - x)])
      have hrx1 : max 0 (x - radius) ≤ (px : Int) := by omega
      have hrx2 : (px : Int) < max 0 (x - radius) + ((radius * 2).natAbs : Int) := by omega
      have hry1 : max 0 (y - radius) ≤ (py : Int) := by omega
      have hry2 : (py : Int) < max 0 (y - radius) + ((radius * 2).natAbs : Int) := by omega
      rw [if_pos ⟨hd, hrx1, hrx2, hry1, hry2⟩, if_pos hd]
      rw [Raster.pixAt_ofFn _ _ _ ((px : Int) - max 0 (x - radius))
        ((py : Int) - max 0 (y - radius)) (by omega) (by omega) (by omega) (by omega)]
      have ex : max 0 (x - radius) + ((((px : Int) - max 0 (x - radius)).toNat : Nat) : Int)
          = (px : Int) := by omega
      have ey : max 0 (y - radius) + ((((py : Int) - max 0 (y - radius)).toNat : Nat) : Int)
          = (py : Int) := by omega
      rw [ex, ey]
    · have hnc : ¬ (inDisc px py x y radius ∧
          max 0 (x - radius) ≤ (px : Int) ∧
          (px : Int) < max 0 (x - radius) + ((radius * 2).natAbs : Int) ∧
          max 0 (y - radius) ≤ (py : Int) ∧
          (py : Int) < max 0 (y - radius) + ((radius * 2).natAbs : Int)) := by
        intro hc
        exact hd hc.1
      rw [if_neg hnc, if_neg hd]
  refine ⟨hmain, ?_, ?_, ?_⟩
  · rw [hmain]
    by_cases hd : inDisc px py x y radius
    · rw [if_pos hd, redEyePix_alpha]
    · rw [if_neg hd]
  · intro hnp
    rw [hmain]
    by_cases hd : inDisc px py x y radius
    · rw [if_pos hd, redEyePix_of_not_pred _ hnp]
    · rw [if_neg hd]
  · intro a
    refine ⟨?_, ?_⟩ <;> simp [redEyePix, roundHalfEven]

/-- A 6×6 raster, green except for a strongly red pixel at (3,3). -/
def redEyeSample6 : Raster :=
  Raster.ofFn 6 6 (fun i j => if i = 3 ∧ j = 3 then ⟨200, 10, 10, 255⟩ else ⟨10, 200, 10, 255⟩)

/-- Witness for C5 at a concrete 6×6 raster: correcting at (3,3) with radius
2 turns the qualifying red pixel (200,10,10) into (10,10,10) and leaves the
in-disc non-qualifying pixel (10,200,10) at (2,3) unchanged. -/
theorem C5_redeye_pixel_rule_witness :
    (0 : Int) < 2 ∧
    (runRepair redEyeSample6 (removeRedEye redEyeSample6 3 3 2)).pixAt 3 3 =
      ⟨10, 10, 10, 255⟩ ∧
    (runRepair redEyeSample6 (removeRedEye redEyeSample6 3 3 2)).pixAt 2 3 =
      ⟨10, 200, 10, 255⟩ := by
  obtain ⟨h1, _, _, _⟩ := C5_redeye_pixel_rule redEyeSample6 3 3 2 3 3
    (by decide) (by decide) (by decide) (by decide) (by decide)
  obtain ⟨_, _, h3, _⟩ := C5_redeye_pixel_rule redEyeSample6 3 3 2 2 3
    (by decide) (by decide) (by decide) (by decide) (by decide)
  refine ⟨by decide, ?_, ?_⟩
  · have h1c := h1
    simp only [Nat.cast_ofNat] at h1c
    rw [h1c]
    decide
  · have h3c := h3 (by decide)
    simp only [Nat.cast_ofNat] at h3c
    rw [h3c]
    decide

end ImageEditor
